import Mathlib

/-!
Verification of the OpenGateway POC membership-and-dispatch runtime.

The definitions below are a shallow embedding of the JavaScript sources:
`scripts/cli.js` (tier catalog, eligibility resolution, connect/disconnect
state operations) and `scripts/poc-node.js` (cluster-identifier resolution,
topic derivation, inference dispatch with backend fallback, line-split
message handling), together with the one-shot request client `send-prompt.js`
(embedded in `docs/architecture/DISCOVERY.md`).

JavaScript numbers that hold resource counts are modelled as `Nat`;
JavaScript strings as `String`; `undefined`/missing JSON fields as `Option`;
byte buffers as `List Nat` (each entry a byte value).  External collaborators
(the HTTP inference backend, `JSON.parse`) are passed in as function
parameters, so theorems quantify over their behavior.
-/

/-! ## Tier catalog and eligibility (`scripts/cli.js`) -/

/-- A tier row of the `TIERS` catalog in `cli.js`: minimum CPU cores, RAM (GB),
GPU VRAM (GB) and disk (GB) for the named model class. -/
structure Tier where
  id : String
  cpu : Nat
  ram : Nat
  gpu : Nat
  disk : Nat
deriving DecidableEq, Repr

/-- The gauged machine resources read from `resources.json`
(cpu cores, ram GB, gpu VRAM GB, disk GB). -/
structure ResourceProfile where
  cpu : Nat
  ram : Nat
  gpu : Nat
  disk : Nat
deriving DecidableEq, Repr

/-- The static `TIERS` catalog of `cli.js` (lines 18–31). -/
def TIERS : List Tier :=
  [ ⟨"SmolLM-360M", 1, 1, 0, 2⟩,
    ⟨"Qwen2-0.5B", 1, 2, 0, 3⟩,
    ⟨"SmolLM-1.7B", 1, 4, 0, 5⟩,
    ⟨"TinyLlama-1.1B", 2, 1, 0, 2⟩,
    ⟨"Phi-2-2.7B", 2, 2, 0, 3⟩,
    ⟨"Llama-3.2-1.5B", 2, 4, 0, 5⟩,
    ⟨"Llama-3.2-3B", 4, 8, 0, 20⟩,
    ⟨"Llama-3.1-8B", 4, 12, 8, 30⟩,
    ⟨"Llama-3.1-70B", 8, 32, 24, 150⟩,
    ⟨"Llama-3.1-405B", 16, 64, 48, 500⟩ ]

/-- The filter predicate of `cmdEligible` (`cli.js` lines 141–145):
reject when cpu, ram or disk falls below the tier minimum; reject when the
tier requires GPU VRAM (`t.gpu > 0`) and the profile has less; else accept. -/
def tierEligible (r : ResourceProfile) (t : Tier) : Bool :=
  if r.cpu < t.cpu ∨ r.ram < t.ram ∨ r.disk < t.disk then false
  else if 0 < t.gpu ∧ r.gpu < t.gpu then false
  else true

/-- `TIERS.filter(...)` of `cmdEligible`, parametric in the catalog. -/
def eligibleTiers (catalog : List Tier) (r : ResourceProfile) : List Tier :=
  catalog.filter (tierEligible r)

/-- The two-tier catalog of the concrete scenario in the spec (§8). -/
def tierT1 : Tier := ⟨"T1", 1, 1, 0, 2⟩

/-- Second tier of the concrete scenario. -/
def tierT2 : Tier := ⟨"T2", 4, 8, 0, 20⟩

/-- The profile of the concrete scenario in the spec (§8). -/
def profileC2 : ResourceProfile := ⟨4, 8, 0, 25⟩

/-! ## Connect / disconnect state operations (`scripts/cli.js`) -/

/-- An entry of the `clusters` array in `state.json`; `cmdConnect` pushes
objects of the form `{ id: clusterId }` and compares with `c.id === clusterId`. -/
structure ClusterEntry where
  id : String
deriving DecidableEq, Repr

/-- `cmdConnect` (`cli.js` lines 89–102) as a transformer of the stored
`clusters` array: a falsy (empty) identifier exits without touching state;
an identifier already present leaves the array unchanged; otherwise the
entry `{id}` is appended and the state written back. -/
def cmdConnect (clusters : List ClusterEntry) (clusterId : String) :
    List ClusterEntry :=
  if clusterId = "" then clusters
  else if clusters.any (fun c => c.id = clusterId) then clusters
  else clusters ++ [⟨clusterId⟩]

/-! ## Cluster-identifier resolution (`scripts/poc-node.js`) -/

/-- Whitespace as recognized by JavaScript `String.prototype.trim` (the
characters that occur in this code base's inputs). -/
def isWsChar (ch : Char) : Bool := ch = ' ' ∨ ch = '\t' ∨ ch = '\n' ∨ ch = '\r'

/-- JS `s.trim()`: strip whitespace from both ends. -/
def jsTrim (s : String) : String :=
  ⟨((s.data.dropWhile isWsChar).reverse.dropWhile isWsChar).reverse⟩

/-- Split a character list at every occurrence of `c`
(the semantics of JS `String.prototype.split` with a one-character
separator: no separator occurrence yields the whole string, a trailing
separator yields a trailing empty piece). -/
def splitOnChar (c : Char) : List Char → List (List Char)
  | [] => [[]]
  | x :: xs =>
    match splitOnChar c xs with
    | [] => [[]]
    | y :: ys => if x = c then [] :: y :: ys else (x :: y) :: ys

/-- JS `s.split(c)` for a one-character separator. -/
def jsSplit (s : String) (c : Char) : List String :=
  (splitOnChar c s.data).map fun l => ⟨l⟩

/-- The comma-split / trim / filter-truthy pipeline applied to the
`POC_CLUSTER_IDS` environment variable. -/
def splitTrimFilter (s : String) : List String :=
  ((jsSplit s ',').map jsTrim).filter (fun x => x ≠ "")

/-- `resolveClusterIds` (`poc-node.js` lines 17–36).

Inputs model the four external sources:
* `idsVar` — `POC_CLUSTER_IDS` (empty string when unset),
* `idVar` — `POC_CLUSTER_ID` (empty string when unset),
* `config` — result of reading and parsing `config.json`: `none` when the
  read or parse throws, otherwise the optional `cluster_id` field,
* `stateClusters` — result of reading `state.json`: `none` when the read or
  parse throws, otherwise the optional `clusters` array, each entry carrying
  its optional `id` field.

JS truthiness of a string field is `≠ ""`. -/
def resolveClusterIds (idsVar idVar : String)
    (config : Option (Option String))
    (stateClusters : Option (Option (List (Option String)))) : List String :=
  let fromEnvList := splitTrimFilter idsVar
  if fromEnvList ≠ [] then fromEnvList
  else if jsTrim idVar ≠ "" then [jsTrim idVar]
  else
    match config with
    | some (some cid) =>
      if cid ≠ "" then [cid]
      else resolveFromState stateClusters
    | _ => resolveFromState stateClusters
where
  /-- The `state.json` branch plus the final fallback (lines 29–35). -/
  resolveFromState :
      Option (Option (List (Option String))) → List String
    | some (some l) =>
      if l.length > 0 then (l.filterMap id).filter (fun s => s ≠ "")
      else ["gatewayai-poc"]
    | _ => ["gatewayai-poc"]

/-! ## Topic-key derivation (`poc-node.js` vs `send-prompt.js`)

`poc-node.js` (`topicForCluster`, lines 52–58) builds the 32-byte topic from
the raw UTF-8 bytes of the cluster identifier, truncated/zero-padded to 32.
`send-prompt.js` (embedded in `docs/architecture/DISCOVERY.md`) instead uses
`crypto.createHash('sha256').update(CLUSTER_ID).digest()`.  We embed both:
bytes are `List Nat` (each entry < 256), and SHA-256 is implemented over
`Nat` with explicit reduction modulo `2^32`. -/

/-- UTF-8 encoding of one character (what `Buffer.from(s, 'utf8')` and the
hash `update` with default encoding produce per code point). -/
def utf8EncodeCharBytes (c : Char) : List Nat :=
  let n := c.toNat
  if n < 128 then [n]
  else if n < 2048 then [192 + n / 64, 128 + n % 64]
  else if n < 65536 then [224 + n / 4096, 128 + (n / 64) % 64, 128 + n % 64]
  else [240 + n / 262144, 128 + (n / 4096) % 64, 128 + (n / 64) % 64,
        128 + n % 64]

/-- UTF-8 bytes of a string. -/
def strBytes (s : String) : List Nat := s.data.flatMap utf8EncodeCharBytes

/-- `topicForCluster` of `poc-node.js`: a 32-byte buffer of zeros with the
identifier's UTF-8 bytes copied into the front (truncated at 32). -/
def topicForCluster (clusterId : String) : List Nat :=
  let src := strBytes clusterId
  src.take 32 ++ List.replicate (32 - min src.length 32) 0

/-- Reduction modulo the 32-bit word size. -/
def w32 (n : Nat) : Nat := n % 4294967296

/-- Right rotation of a 32-bit word. -/
def rotr32 (x n : Nat) : Nat := w32 ((x >>> n) ||| (x <<< (32 - n)))

/-- Xor of three words. -/
def xor3 (a b c : Nat) : Nat := Nat.xor (Nat.xor a b) c

/-- SHA-256 message-schedule sigma 0. -/
def schedSigma0 (x : Nat) : Nat := xor3 (rotr32 x 7) (rotr32 x 18) (x >>> 3)

/-- SHA-256 message-schedule sigma 1. -/
def schedSigma1 (x : Nat) : Nat := xor3 (rotr32 x 17) (rotr32 x 19) (x >>> 10)

/-- SHA-256 round sigma 0. -/
def roundSigma0 (x : Nat) : Nat := xor3 (rotr32 x 2) (rotr32 x 13) (rotr32 x 22)

/-- SHA-256 round sigma 1. -/
def roundSigma1 (x : Nat) : Nat := xor3 (rotr32 x 6) (rotr32 x 11) (rotr32 x 25)

/-- SHA-256 choice function. -/
def sha2ch (x y z : Nat) : Nat := (x &&& y) ^^^ ((x ^^^ 4294967295) &&& z)

/-- SHA-256 majority function. -/
def sha2maj (x y z : Nat) : Nat := (x &&& y) ^^^ (x &&& z) ^^^ (y &&& z)

/-- The 64 SHA-256 round constants. -/
def k256 : List Nat :=
  [1116352408, 1899447441, 3049323471,
   3921009573, 961987163, 1508970993,
   2453635748, 2870763221, 3624381080,
   310598401, 607225278, 1426881987,
   1925078388, 2162078206, 2614888103,
   3248222580, 3835390401, 4022224774,
   264347078, 604807628, 770255983,
   1249150122, 1555081692, 1996064986,
   2554220882, 2821834349, 2952996808,
   3210313671, 3336571891, 3584528711,
   113926993, 338241895, 666307205,
   773529912, 1294757372, 1396182291,
   1695183700, 1986661051, 2177026350,
   2456956037, 2730485921, 2820302411,
   3259730800, 3345764771, 3516065817,
   3600352804, 4094571909, 275423344,
   430227734, 506948616, 659060556,
   883997877, 958139571, 1322822218,
   1537002063, 1747873779, 1955562222,
   2024104815, 2227730452, 2361852424,
   2428436474, 2756734187, 3204031479,
   3329325298]

/-- The SHA-256 initial hash value. -/
def h256init : List Nat :=
  [1779033703, 3144134277, 1013904242,
   2773480762, 1359893119, 2600822924,
   528734635, 1541459225]

/-- SHA-256 message padding: append `0x80`, zeros to 56 mod 64, then the
bit length as 8 big-endian bytes. -/
def sha256pad (m : List Nat) : List Nat :=
  let L := m.length
  let zeros := (119 - L % 64) % 64
  let bits := L * 8
  m ++ [128] ++ List.replicate zeros 0 ++
    ((List.range 8).map fun i => (bits >>> (8 * (7 - i))) % 256)

/-- Pack big-endian bytes into 32-bit words, four at a time. -/
def bytesToWords : List Nat → List Nat
  | a :: b :: c :: d :: rest =>
    (a * 16777216 + b * 65536 + c * 256 + d) :: bytesToWords rest
  | _ => []

/-- Extend the 16 block words to the 64-entry message schedule. -/
def sha256schedule (w0 : List Nat) : Array Nat :=
  (List.range 48).foldl
    (fun w i =>
      w.push (w32 (w.getD i 0 + schedSigma0 (w.getD (i + 1) 0) +
        w.getD (i + 9) 0 + schedSigma1 (w.getD (i + 14) 0))))
    w0.toArray

/-- One SHA-256 compression over a 64-byte block. -/
def sha256compress (hs : List Nat) (block : List Nat) : List Nat :=
  let w := sha256schedule (bytesToWords block)
  let fin := (List.range 64).foldl
    (fun st i =>
      let a := st.getD 0 0
      let b := st.getD 1 0
      let c := st.getD 2 0
      let d := st.getD 3 0
      let e := st.getD 4 0
      let f := st.getD 5 0
      let g := st.getD 6 0
      let hh := st.getD 7 0
      let t1 := w32 (hh + roundSigma1 e + sha2ch e f g + k256.getD i 0 + w.getD i 0)
      let t2 := w32 (roundSigma0 a + sha2maj a b c)
      [w32 (t1 + t2), a, b, c, w32 (d + t1), e, f, g])
    hs
  List.zipWith (fun x y => w32 (x + y)) hs fin

/-- Split into 64-byte blocks, driven by a block-count fuel (the padded
message length is always a multiple of 64). -/
def chunks64 : Nat → List Nat → List (List Nat)
  | 0, _ => []
  | n + 1, l => l.take 64 :: chunks64 n (l.drop 64)

/-- SHA-256 of a byte list, producing the 32 digest bytes. -/
def sha256 (m : List Nat) : List Nat :=
  let p := sha256pad m
  let hs := (chunks64 (p.length / 64) p).foldl sha256compress h256init
  hs.flatMap fun wd =>
    [(wd >>> 24) % 256, (wd >>> 16) % 256, (wd >>> 8) % 256, wd % 256]

/-- Topic derivation of the request client `send-prompt.js`:
`crypto.createHash('sha256').update(CLUSTER_ID).digest()`. -/
def sendPromptTopicKey (clusterId : String) : List Nat :=
  sha256 (strBytes clusterId)

/-! ## Inference dispatch (`poc-node.js` lines 161–266)

The external Ollama call (`inferWithOllama`, which posts to the HTTP backend,
validates the payload and trims the returned text) is modelled as a parameter
`remote : String → String → Except String String` mapping (prompt, model) to
the call's outcome (`ok` trimmed text, or `error` message — any thrown
error).  A JS `undefined`/absent model travels as the empty string through
the selection logic, exactly as `model ? String(model) : ''` makes it. -/

/-- The first step of model selection (lines 162–165): `selected` after the
empty-default substitution — a missing model becomes the first supported
model when the supported list is non-empty. -/
def selectModelInit (supported : List String) (model : String) : String :=
  if model = "" ∧ supported ≠ [] then supported.headD "" else model

/-- The model-selection prefix of `inferPrompt` (lines 162–173): computes
`selected` — an unsupported non-default model is replaced by the first
supported model. -/
def selectModel (supported : List String) (ollamaModel : String)
    (model : String) : String :=
  if supported ≠ [] ∧ selectModelInit supported model ≠ "" ∧
      selectModelInit supported model ∉ supported ∧
      selectModelInit supported model ≠ ollamaModel then
    supported.headD ""
  else selectModelInit supported model

/-- The `MODEL_RUNTIME_MAP` constant (lines 47–49). -/
def modelRuntimeMap (s : String) : Option String :=
  if s = "SmolLM-360M" then some "llama3.2:1b" else none

/-- `chosenModel = MODEL_RUNTIME_MAP[selected] || selected || OLLAMA_MODEL`
(line 174). -/
def chosenModel (supported : List String) (ollamaModel : String)
    (model : String) : String :=
  let sel := selectModel supported ollamaModel model
  match modelRuntimeMap sel with
  | some m => m
  | none => if sel = "" then ollamaModel else sel

/-- The value `inferPrompt` resolves to on success: generated text and the
backend that produced it. -/
structure InferResult where
  text : String
  backend : String
deriving DecidableEq, Repr

/-- `inferPrompt` (lines 161–189).  `mode` is `POC_INFERENCE_BACKEND`
(lower-cased; `echo` and `ollama` are recognized, anything else is the
`auto` default).  Echo mode answers `"[echo] " ++ prompt` and never fails;
ollama mode surfaces the remote outcome; auto mode tries the remote call and
falls back to the echo answer on any failure. -/
def inferPrompt (mode : String) (supported : List String)
    (ollamaModel : String) (remote : String → String → Except String String)
    (prompt model : String) : Except String InferResult :=
  let chosen := chosenModel supported ollamaModel model
  if mode = "echo" then Except.ok ⟨"[echo] " ++ prompt, "echo"⟩
  else if mode = "ollama" then
    match remote prompt chosen with
    | Except.ok t => Except.ok ⟨t, "ollama"⟩
    | Except.error e => Except.error e
  else
    match remote prompt chosen with
    | Except.ok t => Except.ok ⟨t, "ollama"⟩
    | Except.error _ => Except.ok ⟨"[echo] " ++ prompt, "echo"⟩

/-- `msg.model || OLLAMA_MODEL` (line 199): the response's model field. -/
def modelOrDefault (ollamaModel : String) : Option String → String
  | some m => if m = "" then ollamaModel else m
  | none => ollamaModel

/-- One `inference_response` line written back on the connection.  The error
branch of `handleInferenceRequest` carries no model field. -/
structure WireResponse where
  type : String
  request_id : String
  response : String
  model : Option String
deriving DecidableEq, Repr

/-- `handleInferenceRequest` (lines 191–211), for a request whose
`request_id` and `prompt` are present (the dispatcher's guard ensures this
before calling it): resolve the prompt through `inferPrompt` and write one
correlated `inference_response`, successful text or `[error] ...` string. -/
def handleInferenceRequest (mode : String) (supported : List String)
    (ollamaModel : String) (remote : String → String → Except String String)
    (requestId prompt : String) (modelField : Option String) : WireResponse :=
  match inferPrompt mode supported ollamaModel remote prompt
      (modelField.getD "") with
  | Except.ok r =>
    ⟨"inference_response", requestId, r.text,
      some (modelOrDefault ollamaModel modelField)⟩
  | Except.error e =>
    ⟨"inference_response", requestId, "[error] " ++ e, none⟩

/-- A parsed NDJSON message: the fields of one JSON object the data handler
inspects, each `none` when absent from the object. -/
structure Msg where
  type : Option String
  request_id : Option String
  prompt : Option String
  model : Option String
deriving DecidableEq, Repr

/-- The dispatch on one successfully parsed message (lines 242–263),
restricted to its wire output: a `peer_hello` updates the peer registry and
writes nothing; an `inference_request` whose `request_id` and `prompt` are
both present is handed to `handleInferenceRequest`; every other message is
dropped. -/
def dispatchMessage (mode : String) (supported : List String)
    (ollamaModel : String) (remote : String → String → Except String String)
    (m : Msg) : List WireResponse :=
  if m.type = some "peer_hello" then []
  else if m.type = some "inference_request" ∧ m.request_id ≠ none ∧
      m.prompt ≠ none then
    [handleInferenceRequest mode supported ollamaModel remote
      (m.request_id.getD "") (m.prompt.getD "") m.model]
  else []

/-- Processing of one complete line (lines 238–264): blank lines are
skipped, lines `JSON.parse` rejects are silently dropped (`catch (_) {}`),
parsed messages are dispatched.  `parse` models `JSON.parse` restricted to
the fields the handler reads. -/
def processLine (mode : String) (supported : List String)
    (ollamaModel : String) (remote : String → String → Except String String)
    (parse : String → Option Msg) (line : String) : List WireResponse :=
  if jsTrim line = "" then []
  else
    match parse line with
    | none => []
    | some m => dispatchMessage mode supported ollamaModel remote m

/-- The `data` handler (lines 234–266): append the chunk to the buffer,
split on newlines, keep the final partial piece as the
new buffer, and process every complete line in order.  Returns the new
buffer and the responses written. -/
def onData (mode : String) (supported : List String) (ollamaModel : String)
    (remote : String → String → Except String String)
    (parse : String → Option Msg) (buf chunk : String) :
    String × List WireResponse :=
  let lines := jsSplit (buf ++ chunk) '\n'
  ((lines.getLast?).getD "",
    lines.dropLast.flatMap (processLine mode supported ollamaModel remote parse))

/-! ## Theorems -/

/-- Unfolding of the eligibility predicate into arithmetic conditions. -/
lemma tierEligible_iff (r : ResourceProfile) (t : Tier) :
    tierEligible r t = true ↔
      (t.cpu ≤ r.cpu ∧ t.ram ≤ r.ram ∧ t.disk ≤ r.disk ∧
        (0 < t.gpu → t.gpu ≤ r.gpu)) := by
  by_cases h1 : r.cpu < t.cpu ∨ r.ram < t.ram ∨ r.disk < t.disk <;>
    by_cases h2 : 0 < t.gpu ∧ r.gpu < t.gpu <;>
      simp [tierEligible, h1, h2] <;> omega

/-- Membership in the resolver output, for any catalog. -/
lemma mem_eligibleTiers (catalog : List Tier) (r : ResourceProfile) (t : Tier) :
    t ∈ eligibleTiers catalog r ↔
      (t ∈ catalog ∧ t.cpu ≤ r.cpu ∧ t.ram ≤ r.ram ∧ t.disk ≤ r.disk ∧
        (0 < t.gpu → t.gpu ≤ r.gpu)) := by
  rw [eligibleTiers, List.mem_filter, tierEligible_iff]

/-- C2: for every profile and every tier in the catalog, the resolver includes
the tier iff cores, memory and disk meet the minimums and, when the tier's
accelerator minimum is positive, accelerator memory meets it too; and the
two-tier scenario catalog resolves to exactly both tiers on the scenario
profile. -/
theorem eligibility_resolver_correct :
    (∀ (catalog : List Tier) (r : ResourceProfile) (t : Tier),
        t ∈ eligibleTiers catalog r ↔
          (t ∈ catalog ∧ t.cpu ≤ r.cpu ∧ t.ram ≤ r.ram ∧ t.disk ≤ r.disk ∧
            (0 < t.gpu → t.gpu ≤ r.gpu)))
    ∧ eligibleTiers [tierT1, tierT2] profileC2 = [tierT1, tierT2] := by
  refine ⟨mem_eligibleTiers, ?_⟩
  decide

/-- Witness for C2: instance of the membership characterization at the
scenario catalog, profile and first tier. -/
theorem eligibility_resolver_correct_witness :
    tierT1 ∈ eligibleTiers [tierT1, tierT2] profileC2 :=
  (eligibility_resolver_correct.1 [tierT1, tierT2] profileC2 tierT1).mpr
    (by decide)

/-- C3: eligibility over the fixed `TIERS` catalog is monotonic in the
resource profile, componentwise. -/
theorem eligibility_monotonic (r1 r2 : ResourceProfile)
    (hcpu : r1.cpu ≤ r2.cpu) (hram : r1.ram ≤ r2.ram)
    (hgpu : r1.gpu ≤ r2.gpu) (hdisk : r1.disk ≤ r2.disk) :
    ∀ t, t ∈ eligibleTiers TIERS r1 → t ∈ eligibleTiers TIERS r2 := by
  intro t ht
  rw [mem_eligibleTiers] at ht ⊢
  obtain ⟨hmem, h1, h2, h3, h4⟩ := ht
  refine ⟨hmem, le_trans h1 hcpu, le_trans h2 hram, le_trans h3 hdisk, ?_⟩
  intro hg
  exact le_trans (h4 hg) hgpu

/-- Witness for C3: a dominated profile's eligibility transfers to the
dominating profile at a concrete tier. -/
theorem eligibility_monotonic_witness :
    (⟨"SmolLM-360M", 1, 1, 0, 2⟩ : Tier) ∈
      eligibleTiers TIERS ⟨4, 8, 0, 25⟩ :=
  eligibility_monotonic ⟨1, 1, 0, 2⟩ ⟨4, 8, 0, 25⟩
    (by decide) (by decide) (by decide) (by decide)
    ⟨"SmolLM-360M", 1, 1, 0, 2⟩ (by decide)

/-- C9: connect is idempotent on membership — if the identifier is already
present in the stored set, the stored set is unchanged, for every prior
state and identifier. -/
theorem connect_idempotent (clusters : List ClusterEntry) (clusterId : String)
    (hmem : (⟨clusterId⟩ : ClusterEntry) ∈ clusters) :
    cmdConnect clusters clusterId = clusters := by
  unfold cmdConnect
  by_cases hempty : clusterId = ""
  · simp [hempty]
  · have hany : clusters.any (fun c => c.id = clusterId) = true := by
      rw [List.any_eq_true]
      exact ⟨⟨clusterId⟩, hmem, by simp⟩
    simp [hempty, hany]

/-- Witness for C9: connecting to an already-present identifier at a
concrete state is a no-op. -/
theorem connect_idempotent_witness :
    cmdConnect [⟨"gatewayai-poc"⟩, ⟨"other"⟩] "gatewayai-poc" =
      [⟨"gatewayai-poc"⟩, ⟨"other"⟩] :=
  connect_idempotent [⟨"gatewayai-poc"⟩, ⟨"other"⟩] "gatewayai-poc" (by decide)

set_option maxRecDepth 40000 in
/-- C1 (counterexample): the claim that the request client's topic derivation
equals the daemon's `topicForCluster` for every cluster identifier is false:
they disagree on the default identifier `gatewayai-poc`. -/
theorem topic_derivations_not_equal :
    ¬ ∀ clusterId, sendPromptTopicKey clusterId = topicForCluster clusterId :=
  fun h => absurd (h "gatewayai-poc") (by decide)

set_option maxRecDepth 40000 in
/-- C1 (amended): the two embedded derivation functions are **not** equal:
for the default cluster identifier the daemon derives the identifier's raw
UTF-8 bytes zero-padded to 32 bytes, while the request client derives the
SHA-256 digest of those bytes, and the two 32-byte topic keys differ — nodes
using the two programs never rendezvous on the same topic. -/
theorem topic_derivations_disagree :
    topicForCluster "gatewayai-poc" =
      [103, 97, 116, 101, 119, 97, 121, 97, 105, 45, 112, 111, 99,
       0, 0, 0, 0, 0, 0, 0, 0, 0, 0, 0, 0, 0, 0, 0, 0, 0, 0, 0]
    ∧ sendPromptTopicKey "gatewayai-poc" =
      [0x5a, 0xc9, 0x15, 0x22, 0x41, 0xdc, 0x04, 0xae,
       0x0d, 0xcb, 0xf1, 0x22, 0x9d, 0x94, 0xbd, 0xeb,
       0xb7, 0xa3, 0x5d, 0x15, 0x77, 0x94, 0x7f, 0xa7,
       0x31, 0xe5, 0x5a, 0x01, 0xb9, 0xfc, 0x13, 0x0b]
    ∧ sendPromptTopicKey "gatewayai-poc" ≠ topicForCluster "gatewayai-poc" := by
  refine ⟨by decide, by decide, by decide⟩

/-- C8 (failing input): with both environment variables unset, no readable
config, and a state file whose `clusters` array is non-empty but whose single
entry has no `id`, the resolver returns the empty list — it does not fall
back to the default identifier, so the node is left with zero memberships. -/
theorem resolveClusterIds_empty_on_idless_state :
    resolveClusterIds "" "" none (some (some [none])) = [] := by
  decide

/-- C4: in forced-local-echo mode every accepted request yields exactly one
correlated response whose text is the echo marker followed by the prompt;
the mode never fails; and the concrete request `{r1, "2+2?"}` yields
`{r1, "[echo] 2+2?"}`. -/
theorem echo_mode_single_response :
    (∀ (supported : List String) (om : String)
        (remote : String → String → Except String String) (m : Msg)
        (rid p : String),
        m.type = some "inference_request" → m.request_id = some rid →
        m.prompt = some p →
        dispatchMessage "echo" supported om remote m =
          [⟨"inference_response", rid, "[echo] " ++ p,
            some (modelOrDefault om m.model)⟩])
    ∧ (∀ (supported : List String) (om : String)
        (remote : String → String → Except String String) (p mo : String),
        inferPrompt "echo" supported om remote p mo =
          Except.ok ⟨"[echo] " ++ p, "echo"⟩)
    ∧ dispatchMessage "echo" [] "llama3.2:1b"
        (fun _ _ => Except.error "unreachable")
        ⟨some "inference_request", some "r1", some "2+2?", none⟩ =
        [⟨"inference_response", "r1", "[echo] 2+2?", some "llama3.2:1b"⟩] := by
  refine ⟨?_, ?_, by decide⟩
  · intro supported om remote m rid p ht hr hp
    simp [dispatchMessage, ht, hr, hp, handleInferenceRequest, inferPrompt]
  · intro supported om remote p mo
    simp [inferPrompt]

/-- Witness for C4: the general echo-mode case applied to a concrete
request. -/
theorem echo_mode_single_response_witness :
    dispatchMessage "echo" ["m"] "llama3.2:1b"
      (fun _ _ => Except.error "x")
      ⟨some "inference_request", some "rid9", some "hello", none⟩ =
      [⟨"inference_response", "rid9", "[echo] hello", some "llama3.2:1b"⟩] :=
  echo_mode_single_response.1 ["m"] "llama3.2:1b" (fun _ _ => Except.error "x")
    ⟨some "inference_request", some "rid9", some "hello", none⟩ "rid9" "hello"
    rfl rfl rfl

/-- C5: in automatic mode, when the remote backend call fails, the request
still succeeds: `inferPrompt` resolves to the echo result, and the single
response carries the request's id and the echo marker plus the original
prompt. -/
theorem auto_mode_fallback (supported : List String) (om : String)
    (remote : String → String → Except String String) (m : Msg)
    (rid p e : String)
    (ht : m.type = some "inference_request") (hr : m.request_id = some rid)
    (hp : m.prompt = some p)
    (hremote : remote p (chosenModel supported om (m.model.getD "")) =
      Except.error e) :
    inferPrompt "auto" supported om remote p (m.model.getD "") =
      Except.ok ⟨"[echo] " ++ p, "echo"⟩
    ∧ dispatchMessage "auto" supported om remote m =
        [⟨"inference_response", rid, "[echo] " ++ p,
          some (modelOrDefault om m.model)⟩] := by
  constructor
  · simp [inferPrompt, hremote]
  · simp [dispatchMessage, ht, hr, hp, handleInferenceRequest, inferPrompt,
      hremote]

/-- Witness for C5: a deterministically failing backend at a concrete
request still produces the echo response. -/
theorem auto_mode_fallback_witness :
    inferPrompt "auto" [] "llama3.2:1b"
      (fun _ _ => Except.error "connect ECONNREFUSED") "2+2?"
      ((none : Option String).getD "") =
      Except.ok ⟨"[echo] 2+2?", "echo"⟩
    ∧ dispatchMessage "auto" [] "llama3.2:1b"
        (fun _ _ => Except.error "connect ECONNREFUSED")
        ⟨some "inference_request", some "r2", some "2+2?", none⟩ =
        [⟨"inference_response", "r2", "[echo] 2+2?", some "llama3.2:1b"⟩] :=
  auto_mode_fallback [] "llama3.2:1b"
    (fun _ _ => Except.error "connect ECONNREFUSED")
    ⟨some "inference_request", some "r2", some "2+2?", none⟩
    "r2" "2+2?" "connect ECONNREFUSED" rfl rfl rfl rfl

/-- C6 (counterexample): the claim that an unsupported requested model is
always substituted by the first supported model fails when the requested
model equals the configured default (`OLLAMA_MODEL`): with supported list
`["m1"]` and default `"d"`, requesting `"d"` keeps `"d"` — the probe remote
backend is invoked with `"d"`, not `"m1"`. -/
theorem model_substitution_counterexample :
    ("d" : String) ∉ (["m1"] : List String)
    ∧ selectModel ["m1"] "d" "d" = "d"
    ∧ selectModel ["m1"] "d" "d" ≠ "m1"
    ∧ inferPrompt "ollama" ["m1"] "d" (fun _ mdl => Except.ok mdl) "p" "d" =
        Except.ok ⟨"d", "ollama"⟩ :=
  ⟨by decide, by decide, by decide, rfl⟩

/-- C6 (amended): a specified model is substituted by the first supported
model exactly when the supported list is non-empty and contains neither the
specified model nor — the exception the original claim misses — the model
equals the configured default backend model, in which case (as when it is
supported, or the list is empty) it is kept; with no model specified, the
first supported model is selected, or, with no supported models, the
configured default is used. -/
theorem model_resolution_amended (supported : List String) (om m0 : String) :
    (m0 ≠ "" → supported ≠ [] → m0 ∉ supported → m0 ≠ om →
      selectModel supported om m0 = supported.headD "")
    ∧ (m0 ≠ "" → (m0 ∈ supported ∨ m0 = om ∨ supported = []) →
      selectModel supported om m0 = m0)
    ∧ (m0 = "" → selectModel supported om m0 = supported.headD "")
    ∧ (m0 = "" → supported = [] → chosenModel supported om m0 = om) := by
  refine ⟨?_, ?_, ?_, ?_⟩
  · intro h0 hne hmem hom
    have hs1 : selectModelInit supported m0 = m0 := by
      simp [selectModelInit, h0]
    rw [selectModel, hs1, if_pos ⟨hne, h0, hmem, hom⟩]
  · intro h0 hcase
    have hs1 : selectModelInit supported m0 = m0 := by
      simp [selectModelInit, h0]
    rcases hcase with hmem | hom | hnil
    · rw [selectModel, hs1, if_neg fun h => h.2.2.1 hmem]
    · rw [selectModel, hs1, if_neg fun h => h.2.2.2 hom]
    · rw [selectModel, hs1, if_neg fun h => h.1 hnil]
  · intro h0
    subst h0
    rcases supported with _ | ⟨first, rest⟩
    · rfl
    · have hs1 : selectModelInit (first :: rest) "" = first := by
        simp [selectModelInit]
      rw [selectModel, hs1,
        if_neg fun h => h.2.2.1 (by exact List.mem_cons_self first rest)]
      rfl
  · intro h0 hnil
    subst h0 hnil
    rfl

/-- Witness for C6: with supported `["m1"]`, default `"d"`, requesting the
unsupported, non-default `"x"` substitutes `"m1"`. -/
theorem model_resolution_amended_witness :
    selectModel ["m1"] "d" "x" = ["m1"].headD "" :=
  (model_resolution_amended ["m1"] "d" "x").1 (by decide) (by decide)
    (by decide) (by decide)

/-- C7: when the buffered stream splits into a malformed complete line, a
well-formed `inference_request` line, and an empty trailing remainder, the
data handler produces exactly one response, and it carries the request's
`request_id`. -/
theorem malformed_line_tolerated (mode : String) (supported : List String)
    (om : String) (remote : String → String → Except String String)
    (parse : String → Option Msg) (buf chunk l1 l2 : String) (m : Msg)
    (rid p : String)
    (hsplit : jsSplit (buf ++ chunk) '\n' = [l1, l2, ""])
    (hmal : parse l1 = none)
    (htrim : jsTrim l2 ≠ "")
    (hparse : parse l2 = some m)
    (ht : m.type = some "inference_request") (hr : m.request_id = some rid)
    (hp : m.prompt = some p) :
    (onData mode supported om remote parse buf chunk).2 =
      [handleInferenceRequest mode supported om remote rid p m.model]
    ∧ (handleInferenceRequest mode supported om remote rid p m.model).request_id
        = rid := by
  constructor
  · rw [onData, hsplit]
    show processLine mode supported om remote parse l1 ++
      (processLine mode supported om remote parse l2 ++ []) = _
    have h1 : processLine mode supported om remote parse l1 = [] := by
      unfold processLine
      by_cases hb : jsTrim l1 = "" <;> simp [hb, hmal]
    rw [h1]
    unfold processLine
    simp [htrim, hparse, dispatchMessage, ht, hr, hp]
  · unfold handleInferenceRequest
    cases hi : inferPrompt mode supported om remote p (m.model.getD "") <;>
      simp [hi]

/-- Witness for C7: concrete stream `"oops\n{req}\n"` with a parse function
that rejects the first line and accepts the second as a request. -/
theorem malformed_line_tolerated_witness :
    (onData "echo" [] "d" (fun _ _ => Except.error "x")
        (fun s => if s = "{req}" then
          some ⟨some "inference_request", some "r7", some "hi", none⟩
          else none)
        "" "oops\n{req}\n").2 =
      [handleInferenceRequest "echo" [] "d" (fun _ _ => Except.error "x")
        "r7" "hi" none]
    ∧ (handleInferenceRequest "echo" [] "d" (fun _ _ => Except.error "x")
        "r7" "hi" none).request_id = "r7" :=
  malformed_line_tolerated "echo" [] "d" (fun _ _ => Except.error "x")
    (fun s => if s = "{req}" then
      some ⟨some "inference_request", some "r7", some "hi", none⟩ else none)
    "" "oops\n{req}\n" "oops" "{req}"
    ⟨some "inference_request", some "r7", some "hi", none⟩ "r7" "hi"
    (by decide) (by decide) (by decide) (by decide) rfl rfl rfl

/-- C10: the dispatcher answers exactly the parsed messages of type
`inference_request` carrying both a `request_id` and a `prompt`: such a
message yields exactly one `inference_response` correlated to the request's
id and carrying the backend text or an `[error]` string; a request missing
either field — and any message of another type — yields no response. -/
theorem wire_acceptance (mode : String) (supported : List String)
    (om : String) (remote : String → String → Except String String)
    (m : Msg) :
    (∀ rid p, m.type = some "inference_request" → m.request_id = some rid →
      m.prompt = some p →
      dispatchMessage mode supported om remote m =
        [handleInferenceRequest mode supported om remote rid p m.model]
      ∧ (handleInferenceRequest mode supported om remote rid p m.model).type
          = "inference_response"
      ∧ (handleInferenceRequest mode supported om remote rid p
          m.model).request_id = rid
      ∧ (match inferPrompt mode supported om remote p (m.model.getD "") with
         | Except.ok r =>
            (handleInferenceRequest mode supported om remote rid p
              m.model).response = r.text
         | Except.error e =>
            (handleInferenceRequest mode supported om remote rid p
              m.model).response = "[error] " ++ e))
    ∧ (m.type = some "inference_request" →
        (m.request_id = none ∨ m.prompt = none) →
        dispatchMessage mode supported om remote m = [])
    ∧ (m.type ≠ some "inference_request" →
        dispatchMessage mode supported om remote m = []) := by
  refine ⟨?_, ?_, ?_⟩
  · intro rid p ht hr hp
    refine ⟨by simp [dispatchMessage, ht, hr, hp], ?_, ?_, ?_⟩
    · unfold handleInferenceRequest
      cases hi : inferPrompt mode supported om remote p (m.model.getD "") <;>
        simp [hi]
    · unfold handleInferenceRequest
      cases hi : inferPrompt mode supported om remote p (m.model.getD "") <;>
        simp [hi]
    · unfold handleInferenceRequest
      cases hi : inferPrompt mode supported om remote p (m.model.getD "") <;>
        simp [hi]
  · intro ht hmiss
    rcases hmiss with hid | hpr
    · simp [dispatchMessage, ht, hid]
    · simp [dispatchMessage, ht, hpr]
  · intro ht
    unfold dispatchMessage
    by_cases hhello : m.type = some "peer_hello" <;> simp [hhello, ht]

/-- Witness for C10: a concrete `inference_request` missing its prompt is
dropped without a response. -/
theorem wire_acceptance_witness :
    dispatchMessage "echo" [] "d" (fun _ _ => Except.error "x")
      ⟨some "inference_request", some "r", none, none⟩ = [] :=
  (wire_acceptance "echo" [] "d" (fun _ _ => Except.error "x")
    ⟨some "inference_request", some "r", none, none⟩).2.1 rfl (Or.inr rfl)
